import Mathlib

/-!
Verification of the Moondream 3 VLM dispatch/normalization module
(modules/interrogate/moondream3.py).

The module is embedded shallowly:
* Raw model responses (Python dict/list/str/float/None values) are the
  inductive `RawVal`; Python floats are modelled as rationals (`ℚ`), which is
  faithful for the clamping/merging logic verified here (no claim depends on
  binary rounding, NaN or infinities).  Numeric-literal strings, which CPython's
  `float` would parse, are outside the modelled fragment: `pyFloat` succeeds
  exactly on numbers.  Python `list` and `tuple` are both modelled by
  `RawVal.list`.
* Fallible Python operations (`len`, `in`, subscription, `float`, iteration)
  are `Except String` computations whose error cases match the `TypeError` /
  `ValueError` / `KeyError` raised by CPython on the same values.
* The external model, configuration, logging and error-display collaborators
  are parameters (`Model`, `Opts`, encoder functions); logging is a no-op.
-/

namespace Moondream3

/-- A Python value as it can occur in a raw Moondream model response. -/
inductive RawVal
  | num (q : ℚ)
  | str (s : String)
  | list (l : List RawVal)
  | dict (d : List (String × RawVal))
  | nullv

/-- Python truthiness (`if v:`) for the modelled value types; never raises. -/
def pyTruthy : RawVal → Bool
  | .num q => q != 0
  | .str s => !s.isEmpty
  | .list l => !l.isEmpty
  | .dict d => !d.isEmpty
  | .nullv => false

/-- Python `len(v)`; raises `TypeError` on numbers and `None`. -/
def pyLen : RawVal → Except String Nat
  | .num _ => .error "TypeError: object has no len"
  | .str s => .ok s.length
  | .list l => .ok l.length
  | .dict d => .ok d.length
  | .nullv => .error "TypeError: object has no len"

/-- Python iteration (`for e in v`): lists yield elements, strings yield
single-character strings, dicts yield their keys; numbers and `None` raise. -/
def pyIterate : RawVal → Except String (List RawVal)
  | .num _ => .error "TypeError: not iterable"
  | .str s => .ok (s.data.map (fun c => .str (String.mk [c])))
  | .list l => .ok l
  | .dict d => .ok (d.map (fun e => .str e.1))
  | .nullv => .error "TypeError: not iterable"

/-- First-match lookup in the association-list model of a Python dict. -/
def lookupDict (d : List (String × RawVal)) (k : String) : Option RawVal :=
  match d.find? (fun e => e.1 == k) with
  | some e => some e.2
  | none => none

/-- Whether the first character list is a (case-sensitive) prefix of the second. -/
def leadEq : List Char → List Char → Bool
  | [], _ => true
  | _ :: _, [] => false
  | a :: as, b :: bs => a == b && leadEq as bs

/-- Substring test on character lists, the model of Python `needle in hay`. -/
def containsSub (needle : List Char) : List Char → Bool
  | [] => needle.isEmpty
  | c :: rest => leadEq needle (c :: rest) || containsSub needle rest

/-- Python `needle in hay` on strings. -/
def containsStr (hay needle : String) : Bool :=
  containsSub needle.data hay.data

/-- Python `k in v` for a string key: dict key membership, list element
equality, substring test on strings; raises `TypeError` on numbers/`None`. -/
def pyContains (v : RawVal) (k : String) : Except String Bool :=
  match v with
  | .dict d => .ok (lookupDict d k).isSome
  | .list l => .ok (l.any (fun e => match e with | .str s => s == k | _ => false))
  | .str s => .ok (containsSub k.data s.data)
  | .num _ => .error "TypeError: argument not iterable"
  | .nullv => .error "TypeError: argument not iterable"

/-- Python `v[k]` for a string key `k`: dict lookup (raising `KeyError` when
absent); every other modelled type raises `TypeError`. -/
def pyGetStr (v : RawVal) (k : String) : Except String RawVal :=
  match v with
  | .dict d =>
    match lookupDict d k with
    | some x => .ok x
    | none => .error "KeyError"
  | .str _ => .error "TypeError: string indices must be integers"
  | .list _ => .error "TypeError: list indices must be integers"
  | .num _ => .error "TypeError: not subscriptable"
  | .nullv => .error "TypeError: not subscriptable"

/-- Python `float(v)` on the modelled fragment: succeeds exactly on numbers
(numeric-literal strings are outside the fragment, see the header comment). -/
def pyFloat : RawVal → Except String ℚ
  | .num q => .ok q
  | .str _ => .error "ValueError: could not convert string to float"
  | .list _ => .error "TypeError: float argument must be a string or a number"
  | .dict _ => .error "TypeError: float argument must be a string or a number"
  | .nullv => .error "TypeError: float argument must be a string or a number"

/-- Python builtin `min(a, b)`: returns `b` exactly when `b < a`. -/
def pymin (a b : ℚ) : ℚ := if b < a then b else a

/-- Python builtin `max(a, b)`: returns `b` exactly when `b > a`. -/
def pymax (a b : ℚ) : ℚ := if b > a then b else a

/-- `max(0.0, min(1.0, q))`, the coordinate normalization used by `point`
and `detect`. -/
def clamp01 (q : ℚ) : ℚ := pymax 0 (pymin 1 q)

/-! ## The `point` invoker's response normalization (moondream3.py lines 227-253) -/

/-- Result of `point`: a list of `(x, y)` coordinates, or the `None`
not-found sentinel. -/
inductive PointResult
  | found (pts : List (ℚ × ℚ))
  | notFound
deriving DecidableEq, Repr

/-- One iteration of the `for point_data in points_list` loop of `point`: an
entry with both an `x` and a `y` field yields a clamped pair, an entry with a
field missing yields nothing, and an error raised by `in`, subscription or
`float` propagates (the loop has no try/except). -/
def pointStep (e : RawVal) : Except String (Option (ℚ × ℚ)) :=
  match pyContains e "x" with
  | .error msg => .error msg
  | .ok false => .ok none
  | .ok true =>
    match pyContains e "y" with
    | .error msg => .error msg
    | .ok false => .ok none
    | .ok true =>
      match pyGetStr e "x" with
      | .error msg => .error msg
      | .ok vx =>
        match pyFloat vx with
        | .error msg => .error msg
        | .ok x =>
          match pyGetStr e "y" with
          | .error msg => .error msg
          | .ok vy =>
            match pyFloat vy with
            | .error msg => .error msg
            | .ok y => .ok (some (clamp01 x, clamp01 y))

/-- The whole `for point_data in points_list` loop: entries are processed in
order, contributing pairs accumulate, and the first raised error aborts the
loop. -/
def pointLoop : List RawVal → Except String (List (ℚ × ℚ))
  | [] => .ok []
  | e :: rest =>
    match pointStep e with
    | .error msg => .error msg
    | .ok none => pointLoop rest
    | .ok (some pt) =>
      match pointLoop rest with
      | .error msg => .error msg
      | .ok tail => .ok (pt :: tail)

/-- The `point` response normalization: a dict with a truthy `points` field is
parsed entry-wise via `pointLoop` (a non-empty filtered list is returned,
otherwise the sentinel); a two-element list/tuple is a single clamped pair;
anything else is the sentinel.  Exceptions raised during parsing propagate. -/
def point (result : RawVal) : Except String PointResult :=
  match result with
  | .dict d =>
    match lookupDict d "points" with
    | some pl =>
      if pyTruthy pl then
        match pyLen pl with
        | .error msg => .error msg
        | .ok n =>
          if 0 < n then
            match pyIterate pl with
            | .error msg => .error msg
            | .ok entries =>
              match pointLoop entries with
              | .error msg => .error msg
              | .ok coords =>
                if coords.isEmpty then .ok .notFound else .ok (.found coords)
          else .ok .notFound
      else .ok .notFound
    | none => .ok .notFound
  | .list l =>
    match l with
    | [a, b] =>
      match pyFloat a with
      | .error msg => .error msg
      | .ok x =>
        match pyFloat b with
        | .error msg => .error msg
        | .ok y => .ok (.found [(clamp01 x, clamp01 y)])
    | _ => .ok .notFound
  | _ => .ok .notFound

/-- Is the value a number? -/
def isNumVal : RawVal → Bool
  | .num _ => true
  | _ => false

/-- A `points` entry is good when it is a record whose `x` and `y` values are
numeric whenever both fields are present — exactly the entries on which the
loop body cannot raise. -/
def goodPointEntry : RawVal → Bool
  | .dict d =>
    match lookupDict d "x", lookupDict d "y" with
    | some vx, some vy => isNumVal vx && isNumVal vy
    | _, _ => true
  | _ => false

/-- What a good entry contributes: a clamped pair when both fields are
present, nothing otherwise. -/
def parsePointEntry : RawVal → Option (ℚ × ℚ)
  | .dict d =>
    match lookupDict d "x", lookupDict d "y" with
    | some (.num x), some (.num y) => some (clamp01 x, clamp01 y)
    | _, _ => none
  | _ => none

/-- Raw point results on which the normalization provably raises nothing: a
`points` field that is either a falsy value or a list of good entries, and
two-element pairs with numeric components.  (Outside this set the code can
raise, e.g. `float` on a non-numeric coordinate.) -/
def wellShapedPoint : RawVal → Bool
  | .dict d =>
    match lookupDict d "points" with
    | none => true
    | some (.list es) => es.all goodPointEntry
    | some (.num q) => q == 0
    | some (.str s) => s.isEmpty
    | some (.dict d2) => d2.isEmpty
    | some .nullv => true
  | .list l =>
    match l with
    | [a, b] => isNumVal a && isNumVal b
    | _ => true
  | _ => true

/-- Shapes the claim calls "any other": neither a record with a `points`
field nor a two-element sequence. -/
def otherPointShape : RawVal → Bool
  | .dict d => (lookupDict d "points").isNone
  | .list l => l.length != 2
  | _ => true

/-! ## The `detect` invoker's response normalization (moondream3.py lines 293-320) -/

/-- One detection record: `{'label': ..., 'bbox': [x1, y1, x2, y2], 'confidence': 1.0}`. -/
structure Detection where
  label : String
  bbox : List ℚ
  confidence : ℚ
deriving DecidableEq, Repr

/-- The body of the `for obj in objects_list` loop of `detect`, including its
try/except: an entry with all four of `x_min`, `y_min`, `x_max`, `y_max`
becomes a `Detection` labelled with the queried object name, clamped bbox and
confidence `1.0`; an entry with a field missing is skipped by the `if`, and an
entry whose membership test, subscription or `float` coercion raises is caught
and skipped (`continue`). `none` models both skip paths. -/
def detectEntry (objectName : String) (obj : RawVal) : Option Detection :=
  match pyContains obj "x_min" with
  | .error _ => none
  | .ok false => none
  | .ok true =>
    match pyContains obj "y_min" with
    | .error _ => none
    | .ok false => none
    | .ok true =>
      match pyContains obj "x_max" with
      | .error _ => none
      | .ok false => none
      | .ok true =>
        match pyContains obj "y_max" with
        | .error _ => none
        | .ok false => none
        | .ok true =>
          match pyGetStr obj "x_min" with
          | .error _ => none
          | .ok v1 =>
            match pyFloat v1 with
            | .error _ => none
            | .ok x1 =>
              match pyGetStr obj "y_min" with
              | .error _ => none
              | .ok v2 =>
                match pyFloat v2 with
                | .error _ => none
                | .ok y1 =>
                  match pyGetStr obj "x_max" with
                  | .error _ => none
                  | .ok v3 =>
                    match pyFloat v3 with
                    | .error _ => none
                    | .ok x2 =>
                      match pyGetStr obj "y_max" with
                      | .error _ => none
                      | .ok v4 =>
                        match pyFloat v4 with
                        | .error _ => none
                        | .ok y2 =>
                          some ⟨objectName, [clamp01 x1, clamp01 y1, clamp01 x2, clamp01 y2], 1⟩

/-- The `detect` response normalization: a dict with an `objects` field is
iterated (iteration failure on a non-iterable value propagates uncaught, since
the try/except sits inside the loop body) and each entry parsed independently
via `detectEntry`; any other shape yields the empty detection list. -/
def detect (objectName : String) (result : RawVal) : Except String (List Detection) :=
  match result with
  | .dict d =>
    match lookupDict d "objects" with
    | some objs =>
      match pyIterate objs with
      | .error msg => .error msg
      | .ok entries => .ok (entries.filterMap (detectEntry objectName))
    | none => .ok []
  | _ => .ok []

/-! ## Settings builder (moondream3.py lines 33-45) merged with per-call
overrides as in `query`/`caption` (lines 121-128, 179-186) -/

/-- The global VQA options read by `get_settings`. -/
structure Opts where
  interrogate_vlm_max_length : ℚ
  interrogate_vlm_temperature : ℚ
  interrogate_vlm_top_p : ℚ

/-- The settings dict: a field is present (`some`) exactly when the
corresponding key is in the dict. -/
structure SettingsMap where
  max_tokens : Option ℚ
  temperature : Option ℚ
  top_p : Option ℚ
deriving DecidableEq, Repr

def emptySettings : SettingsMap := ⟨none, none, none⟩

/-- `get_settings`: each field is included when its global default is `> 0`;
an empty dict is returned as `None` (the dict-truthiness check on line 45). -/
def get_settings (o : Opts) : Option SettingsMap :=
  let s := emptySettings
  let s := if 0 < o.interrogate_vlm_max_length then
      { s with max_tokens := some o.interrogate_vlm_max_length } else s
  let s := if 0 < o.interrogate_vlm_temperature then
      { s with temperature := some o.interrogate_vlm_temperature } else s
  let s := if 0 < o.interrogate_vlm_top_p then
      { s with top_p := some o.interrogate_vlm_top_p } else s
  if s = emptySettings then none else some s

/-- The merge performed by `query`/`caption`: start from
`get_settings() or {}` and store each per-call override that is not `None`
(in source order: temperature, top_p, max_tokens). -/
def effective_settings (o : Opts) (temperature top_p max_tokens : Option ℚ) : SettingsMap :=
  let s := (get_settings o).getD emptySettings
  let s := match temperature with
    | some v => { s with temperature := some v }
    | none => s
  let s := match top_p with
    | some v => { s with top_p := some v }
    | none => s
  let s := match max_tokens with
    | some v => { s with max_tokens := some v }
    | none => s
  s

/-! ## Image encoding cache (moondream3.py lines 73-97 and 454-459)

Images and encoded-image handles are opaque to the module; both are modelled
as naturals, with the external encoder an arbitrary function `Nat → Nat`
(`model.encode_image`). -/

/-- The module-level `image_cache` dict. -/
abbrev Cache := List (String × Nat)

def cacheLookup (c : Cache) (k : String) : Option Nat :=
  match c.find? (fun e => e.1 == k) with
  | some e => some e.2
  | none => none

/-- Python dict assignment `image_cache[cache_key] = encoded`. -/
def cacheInsert (c : Cache) (k : String) (v : Nat) : Cache :=
  (k, v) :: c.filter (fun e => !(e.1 == k))

/-- The outcome of one `encode_image` call: the returned handle, the cache
afterwards, and whether the external `model.encode_image` was invoked. -/
structure EncodeResult where
  handle : Nat
  cache : Cache
  invoked : Bool
deriving DecidableEq, Repr

/-- `encode_image`: the cache is consulted only when `cache_key` is truthy
(`if cache_key and cache_key in image_cache:`), i.e. present and non-empty;
otherwise the external encoder runs and the result is stored only when the
key is truthy (`if cache_key:`). -/
def encode_image (enc : Nat → Nat) (c : Cache) (image : Nat) (cache_key : Option String) :
    EncodeResult :=
  match cache_key with
  | some k =>
    if k ≠ "" then
      match cacheLookup c k with
      | some h => ⟨h, c, false⟩
      | none => ⟨enc image, cacheInsert c k (enc image), true⟩
    else ⟨enc image, c, true⟩
  | none => ⟨enc image, c, true⟩

/-- `clear_cache`: `image_cache.clear()`. -/
def clear_cache (_c : Cache) : Cache := []

/-! ## Mode dispatcher (moondream3.py lines 323-451)

String heuristics are embedded over character lists.  `str.lower`,
`\w` and `\s` are modelled at ASCII precision, which covers the ASCII trigger
phrases and cue words the code matches on. -/

/-- Python `str.lower()`. -/
def pyLower (s : String) : String := String.mk (s.data.map Char.toLower)

/-- The question cleaning on line 346:
`question.replace('<', '').replace('>', '').replace('_', ' ')` (a falsy
question becomes the empty string, which is already its own cleaning). -/
def cleanQuestion (q : String) : String :=
  String.mk ((q.data.filter (fun c => !(c == '<' || c == '>'))).map
    (fun c => if c == '_' then ' ' else c))

/-- Python regex `\w` (ASCII fragment). -/
def isWordChar (c : Char) : Bool := c.isAlphanum || c == '_'

/-- Python regex `\s` / `str.strip` whitespace (ASCII fragment). -/
def pyIsSpace (c : Char) : Bool := c.isWhitespace

/-- Case-insensitive prefix test: `pat` (given in lowercase) against `s`. -/
def leadCI (pat : List Char) (s : List Char) : Bool :=
  match pat, s with
  | [], _ => true
  | _ :: _, [] => false
  | p :: ps, c :: cs => p == c.toLower && leadCI ps cs

/-- Does `s` start with a whole-word, case-insensitive occurrence of `phrase`
(the trailing `\b` of `re.sub(rf'\b{phrase}\b', ...)`)?  All stripped phrases
end in a word character, so the boundary holds exactly when the next original
character is absent or not a word character; the leading `\b` is checked by
the caller via the preceding character. -/
def phraseAt (phrase : List Char) (s : List Char) : Bool :=
  leadCI phrase s &&
    (match s.drop phrase.length with
     | [] => true
     | c :: _ => !isWordChar c)

/-- One pass of `re.sub(rf'\b{phrase}\b', '', s, flags=re.IGNORECASE)`:
left-to-right scan replacing every non-overlapping whole-word occurrence.
`prevWord` tracks whether the previous original character is a word character
(the leading `\b`; all stripped phrases begin with a word character).  The
fuel is the length of the scanned list, which suffices because every step
consumes at least one character of a non-empty phrase. -/
def subPhraseGo (phrase : List Char) : Nat → Bool → List Char → List Char
  | _, _, [] => []
  | 0, _, s => s
  | f + 1, prevWord, c :: rest =>
    if !prevWord && phraseAt phrase (c :: rest) then
      subPhraseGo phrase f (isWordChar (phrase.getLastD 'x')) ((c :: rest).drop phrase.length)
    else
      c :: subPhraseGo phrase f (isWordChar c) rest

/-- Sequential removal of the trigger phrases, as the `for phrase in [...]`
loops on lines 397-398 and 421-422. -/
def removePhrases (phrases : List String) (s : List Char) : List Char :=
  phrases.foldl (fun acc p => subPhraseGo p.data acc.length false acc) s

/-- Python `str.strip()`. -/
def pyStripChars (s : List Char) : List Char :=
  ((s.dropWhile pyIsSpace).reverse.dropWhile pyIsSpace).reverse

/-- `re.sub(r'^\s*the\s+', '', s, flags=re.IGNORECASE)`: at most one anchored
replacement of optional whitespace, `the`, and at least one following
whitespace character (consumed greedily). -/
def stripLeadingThe (s : List Char) : List Char :=
  let rest := s.dropWhile pyIsSpace
  if leadCI ['t', 'h', 'e'] rest then
    match rest.drop 3 with
    | c :: _ => if pyIsSpace c then (rest.drop 3).dropWhile pyIsSpace else s
    | [] => s
  else s

/-- The object-name extraction pipeline shared by the point and detect
branches: strip the mode's trigger phrases, remove `[?.!,]`, strip
surrounding whitespace, remove a single leading `the`. -/
def stripPipeline (phrases : List String) (q : String) : String :=
  let s := removePhrases phrases q.data
  let s := s.filter (fun c => !(c == '?' || c == '.' || c == '!' || c == ','))
  let s := pyStripChars s
  let s := stripLeadingThe s
  String.mk s

def pointPhrases : List String := ["point at", "where is", "locate", "find"]

def detectPhrases : List String := ["detect", "find all", "bounding box", "bbox", "find"]

/-- The object name the point branch passes to the point invoker (applied to
the cleaned question). -/
def pointObjectName (q : String) : String := stripPipeline pointPhrases q

/-- The detect branch's object name before the `" and "` truncation. -/
def detectBaseName (q : String) : String := stripPipeline detectPhrases q

/-- Does `s` start with a match of `\s+and\s+` (case-insensitive)?  The
whitespace run is maximal; a shorter run cannot expose `and` because
whitespace is never a letter. -/
def startsAndMatch (s : List Char) : Bool :=
  let run := s.takeWhile pyIsSpace
  let rest := s.dropWhile pyIsSpace
  !run.isEmpty && leadCI ['a', 'n', 'd'] rest &&
    (match rest.drop 3 with
     | c :: _ => pyIsSpace c
     | [] => false)

/-- `re.split(r'\s+and\s+', s, flags=re.IGNORECASE)[0]`: the text before the
leftmost match (the whole string when there is none). -/
def beforeAndSplit : List Char → List Char
  | [] => []
  | c :: rest => if startsAndMatch (c :: rest) then [] else c :: beforeAndSplit rest

/-- The object name the detect branch passes to the detect invoker: the base
extraction, truncated at the first `\s+and\s+` match (then stripped) when the
literal `" and "` occurs in its lowercasing (lines 428-429). -/
def detectObjectName (q : String) : String :=
  let s := detectBaseName q
  if containsStr (pyLower s) " and " then String.mk (pyStripChars (beforeAndSplit s.data))
  else s

/-- The caption cue of line 353:
`question in ['CAPTION', 'caption'] or 'caption' in question_lower`. -/
def captionCond (q : String) : Bool :=
  q == "CAPTION" || q == "caption" || containsStr (pyLower q) "caption"

/-- The point cues of line 372. -/
def pointCond (q : String) : Bool :=
  containsStr (pyLower q) "where is" || containsStr (pyLower q) "locate" ||
    containsStr (pyLower q) "find" || containsStr (pyLower q) "point"

/-- The detect cues of line 376. -/
def detectCond (q : String) : Bool :=
  containsStr (pyLower q) "detect" || containsStr (pyLower q) "bounding box" ||
    containsStr (pyLower q) "bbox"

/-- The caption-length sub-classification of lines 354-369. -/
def captionSub (q : String) : String :=
  let ql := pyLower q
  if containsStr ql "more detailed" || containsStr ql "very long" then "caption_long"
  else if containsStr ql "detailed" || containsStr ql "long" then "caption_normal"
  else if containsStr ql "short" || containsStr ql "brief" then "caption_short"
  else if q == "CAPTION" then "caption_short"
  else if q == "DETAILED CAPTION" then "caption_normal"
  else if q == "MORE DETAILED CAPTION" then "caption_long"
  else "caption_normal"

/-- The auto-detected mode (lines 349-381), applied to the cleaned question:
caption cues first, then point cues, then detect cues, else query. -/
def autoMode (q : String) : String :=
  if captionCond q then captionSub q
  else if pointCond q then "point"
  else if detectCond q then "detect"
  else "query"

/-- The mode `predict` dispatches on: the explicit `mode` argument when
supplied, otherwise the auto-detected mode of the cleaned question. -/
def selectedMode (question : String) (mode : Option String) : String :=
  match mode with
  | some m => m
  | none => autoMode (cleanQuestion question)

/-! ## `predict` result formatting (lines 405-439)

Python `:.3f` / `:.2f` formatting is modelled by fixed-point rendering of the
rational (round half up); the clamped values formatted here are nonnegative. -/

def natPad (width n : Nat) : String :=
  let s := toString n
  if s.length < width then String.mk (List.replicate (width - s.length) '0') ++ s else s

/-- Fixed-point rendering with `prec` fractional digits, modelling Python
`format(q, '.3f')` on the in-range values produced by the normalizers. -/
def fmtFixed (prec : Nat) (q : ℚ) : String :=
  let scale : ℚ := (10 : ℚ) ^ prec
  let n : Int := (q * scale + 1 / 2).floor
  let n' : Nat := n.toNat
  toString (n' / 10 ^ prec) ++ "." ++ natPad prec (n' % 10 ^ prec)

def fmtPoint (p : ℚ × ℚ) : String :=
  "(" ++ fmtFixed 3 p.1 ++ ", " ++ fmtFixed 3 p.2 ++ ")"

/-- The point branch's text: single coordinates on one line, several as an
enumerated list (lines 406-414). -/
def formatPoints (pts : List (ℚ × ℚ)) : String :=
  match pts with
  | [p] => "Found at coordinates: " ++ fmtPoint p
  | _ =>
    let lines := ("Found " ++ toString pts.length ++ " instances:") ::
      (pts.enum.map (fun ip => "  " ++ toString (ip.1 + 1) ++ ". " ++ fmtPoint ip.2))
    String.intercalate "\n" lines

def formatDetection (dt : Detection) : String :=
  dt.label ++ ": [" ++ String.intercalate ", " (dt.bbox.map (fmtFixed 3)) ++
    "] (confidence: " ++ fmtFixed 2 dt.confidence ++ ")"

/-- The detect branch's text: one line per detection (lines 435-437). -/
def formatDetections (ds : List Detection) : String :=
  String.intercalate "\n" (ds.map formatDetection)

/-! ## The dispatcher itself -/

/-- The structured payload returned alongside the text by the point/detect
branches. -/
inductive Payload
  | points (pts : List (ℚ × ℚ))
  | detections (ds : List Detection)

/-- A `predict` return value: the raw model response (query/caption modes), a
plain string, or a `(text, payload)` pair with `none` as the `None` payload. -/
inductive Response
  | raw (v : RawVal)
  | text (s : String)
  | withPayload (s : String) (p : Option Payload)

/-- The external model capabilities `predict` dispatches to, each taking the
argument this layer computes for it and either returning a raw response or
raising.  `mquery` stands for the whole query invoker chain (including the
optional encoding cache), whose failures likewise propagate to the dispatcher
boundary. -/
structure Model where
  mquery : String → Except String RawVal
  mcaption : String → Except String RawVal
  mpoint : String → Except String RawVal
  mdetect : String → Except String RawVal

/-- A model every capability of which raises with message `msg`. -/
def failModel (msg : String) : Model :=
  ⟨fun _ => .error msg, fun _ => .error msg, fun _ => .error msg, fun _ => .error msg⟩

/-- The body of `predict`'s `try:` block (lines 386-446): mode dispatch,
object-name extraction, capability invocation, response parsing and
formatting.  Any error raised by an external capability or by parsing
surfaces as the `Except` error. -/
def predictE (m : Model) (q0 : String) (mode0 : Option String) : Except String Response :=
  let question := cleanQuestion q0
  let mode := selectedMode q0 mode0
  if mode = "caption_short" then
    match m.mcaption "short" with
    | .error e => .error e
    | .ok v => .ok (.raw v)
  else if mode = "caption_long" then
    match m.mcaption "long" with
    | .error e => .error e
    | .ok v => .ok (.raw v)
  else if mode = "caption" ∨ mode = "caption_normal" then
    match m.mcaption "normal" with
    | .error e => .error e
    | .ok v => .ok (.raw v)
  else if mode = "point" then
    match m.mpoint (pointObjectName question) with
    | .error e => .error e
    | .ok r =>
      match point r with
      | .error e => .error e
      | .ok (.found pts) =>
        if pts.isEmpty then .ok (.withPayload "Object not found" none)
        else .ok (.withPayload (formatPoints pts) (some (.points pts)))
      | .ok .notFound => .ok (.withPayload "Object not found" none)
  else if mode = "detect" then
    match m.mdetect (detectObjectName question) with
    | .error e => .error e
    | .ok r =>
      match detect (detectObjectName question) r with
      | .error e => .error e
      | .ok ds =>
        if ds.isEmpty then .ok (.withPayload "No objects detected" none)
        else .ok (.withPayload (formatDetections ds) (some (.detections ds)))
  else
    match m.mquery (if question.length < 2 then "Describe this image." else question) with
    | .error e => .error e
    | .ok v => .ok (.raw v)

/-- `predict`: the dispatcher boundary.  The `except Exception` handler on
lines 448-451 reports the error (to the external error displayer, a no-op
here) and returns the string `"Error: " + str(e)`. -/
def predict (m : Model) (q0 : String) (mode0 : Option String) : Response :=
  match predictE m q0 mode0 with
  | .ok r => r
  | .error e => .text ("Error: " ++ e)

/-! ## Helper lemmas -/

theorem clamp01_nonneg (q : ℚ) : 0 ≤ clamp01 q := by
  simp only [clamp01, pymax, pymin]
  split_ifs <;> linarith

theorem clamp01_le_one (q : ℚ) : clamp01 q ≤ 1 := by
  simp only [clamp01, pymax, pymin]
  split_ifs <;> linarith

/-- Any pair produced by the loop body is a pair of clamped values. -/
theorem pointStep_bounds (e : RawVal) (p : ℚ × ℚ) (h : pointStep e = .ok (some p)) :
    0 ≤ p.1 ∧ p.1 ≤ 1 ∧ 0 ≤ p.2 ∧ p.2 ≤ 1 := by
  unfold pointStep at h
  repeat' split at h
  all_goals simp_all
  subst h
  exact ⟨clamp01_nonneg _, clamp01_le_one _, clamp01_nonneg _, clamp01_le_one _⟩

/-- Every pair produced by the point loop is within `[0, 1]²`. -/
theorem pointLoop_bounds (es : List RawVal) (cs : List (ℚ × ℚ)) (h : pointLoop es = .ok cs) :
    ∀ p ∈ cs, 0 ≤ p.1 ∧ p.1 ≤ 1 ∧ 0 ≤ p.2 ∧ p.2 ≤ 1 := by
  induction es generalizing cs with
  | nil =>
    intro p hp
    simp only [pointLoop] at h
    cases h
    simp at hp
  | cons e rest ih =>
    intro p hp
    simp only [pointLoop] at h
    cases hstep : pointStep e with
    | error msg => rw [hstep] at h; cases h
    | ok o =>
      rw [hstep] at h
      cases o with
      | none => exact ih _ h p hp
      | some pt =>
        cases htail : pointLoop rest with
        | error msg => rw [htail] at h; cases h
        | ok tail =>
          rw [htail] at h
          cases h
          rcases List.mem_cons.mp hp with rfl | hmem
          · exact pointStep_bounds e p hstep
          · exact ih _ htail p hmem

/-- On a good entry the loop body raises nothing and contributes exactly
`parsePointEntry`. -/
theorem pointStep_good (e : RawVal) (hg : goodPointEntry e = true) :
    pointStep e = .ok (parsePointEntry e) := by
  cases e with
  | dict d =>
    unfold pointStep parsePointEntry pyContains pyGetStr
    cases hx : lookupDict d "x" with
    | none => simp [hx]
    | some vx =>
      cases hy : lookupDict d "y" with
      | none => simp [hx, hy]
      | some vy =>
        have hnum : isNumVal vx && isNumVal vy := by
          simpa [goodPointEntry, hx, hy] using hg
        cases vx with
        | num x =>
          cases vy with
          | num y => simp [hx, hy, pyFloat]
          | str s => simp [isNumVal] at hnum
          | list l => simp [isNumVal] at hnum
          | dict d2 => simp [isNumVal] at hnum
          | nullv => simp [isNumVal] at hnum
        | str s => simp [isNumVal] at hnum
        | list l => simp [isNumVal] at hnum
        | dict d2 => simp [isNumVal] at hnum
        | nullv => simp [isNumVal] at hnum
  | num q => simp [goodPointEntry] at hg
  | str s => simp [goodPointEntry] at hg
  | list l => simp [goodPointEntry] at hg
  | nullv => simp [goodPointEntry] at hg

/-- On a list of good entries the loop raises nothing and returns the
filtered, order-preserving parse. -/
theorem pointLoop_good (es : List RawVal) (hg : ∀ e ∈ es, goodPointEntry e = true) :
    pointLoop es = .ok (es.filterMap parsePointEntry) := by
  induction es with
  | nil => simp [pointLoop]
  | cons e rest ih =>
    have he : goodPointEntry e = true := hg e (List.mem_cons_self e rest)
    have ihr : pointLoop rest = .ok (rest.filterMap parsePointEntry) :=
      ih (fun x hx => hg x (List.mem_cons_of_mem e hx))
    simp only [pointLoop, pointStep_good e he, ihr]
    cases hp : parsePointEntry e with
    | none => simp [List.filterMap_cons, hp]
    | some pt => simp [List.filterMap_cons, hp]

/-- On a record whose `points` field is a list of good entries, `point`
raises nothing and returns the order-preserving filtered parse (the sentinel
when nothing survives). -/
theorem point_dict_good (d : List (String × RawVal)) (es : List RawVal)
    (hl : lookupDict d "points" = some (.list es))
    (hg : ∀ e ∈ es, goodPointEntry e = true) :
    point (.dict d) =
      .ok (if (es.filterMap parsePointEntry).isEmpty then PointResult.notFound
           else .found (es.filterMap parsePointEntry)) := by
  simp only [point, hl]
  cases es with
  | nil => simp [pyTruthy]
  | cons e rest =>
    have hpl := pointLoop_good (e :: rest) hg
    simp [pyTruthy, pyLen, pyIterate, hpl]
    split <;> rfl

/-- Any detection built by the loop body has a fully clamped bbox, label the
queried name and confidence 1. -/
theorem detectEntry_shape (name : String) (obj : RawVal) (dt : Detection)
    (h : detectEntry name obj = some dt) :
    dt.label = name ∧ dt.confidence = 1 ∧ ∀ c ∈ dt.bbox, 0 ≤ c ∧ c ≤ 1 := by
  unfold detectEntry at h
  repeat' split at h
  all_goals simp_all
  subst h
  refine ⟨rfl, rfl, ?_⟩
  intro c hc
  simp only [List.mem_cons, List.not_mem_nil, or_false] at hc
  rcases hc with rfl | rfl | rfl | rfl <;>
    exact ⟨clamp01_nonneg _, clamp01_le_one _⟩

/-! ## Claim theorems -/

/-- Claim C1: every coordinate in the values returned by `point` (each pair's
components) and by `detect` (each detection's four bbox components) lies in
`[0.0, 1.0]`, regardless of the magnitude or sign of the raw numeric input,
because each axis is clamped during normalization. -/
theorem c1_coordinates_clamped :
    (∀ (r : RawVal) (pts : List (ℚ × ℚ)), point r = .ok (.found pts) →
      ∀ p ∈ pts, 0 ≤ p.1 ∧ p.1 ≤ 1 ∧ 0 ≤ p.2 ∧ p.2 ≤ 1) ∧
    (∀ (name : String) (r : RawVal) (ds : List Detection), detect name r = .ok ds →
      ∀ dt ∈ ds, ∀ c ∈ dt.bbox, 0 ≤ c ∧ c ≤ 1) := by
  constructor
  · intro r pts h p hp
    cases r with
    | dict d =>
      simp only [point] at h
      cases hl : lookupDict d "points" with
      | none => simp [hl] at h
      | some pl =>
        simp only [hl] at h
        by_cases ht : pyTruthy pl = true
        · rw [if_pos ht] at h
          cases hlen : pyLen pl with
          | error msg => simp [hlen] at h
          | ok n =>
            simp only [hlen] at h
            by_cases hn : 0 < n
            · rw [if_pos hn] at h
              cases hit : pyIterate pl with
              | error msg => simp [hit] at h
              | ok entries =>
                simp only [hit] at h
                cases hcl : pointLoop entries with
                | error msg => simp [hcl] at h
                | ok coords =>
                  simp only [hcl] at h
                  by_cases hce : coords.isEmpty = true
                  · rw [if_pos hce] at h; simp at h
                  · rw [if_neg hce] at h
                    simp only [Except.ok.injEq, PointResult.found.injEq] at h
                    subst h
                    exact pointLoop_bounds entries _ hcl p hp
            · rw [if_neg hn] at h; simp at h
        · rw [if_neg ht] at h; simp at h
    | list l =>
      simp only [point] at h
      match l with
      | [] => simp at h
      | [a] => simp at h
      | a :: b :: c :: l3 => simp at h
      | [a, b] =>
        cases a with
        | num x =>
          cases b with
          | num y =>
            simp only [pyFloat, Except.ok.injEq, PointResult.found.injEq] at h
            subst h
            simp only [List.mem_singleton] at hp
            subst hp
            exact ⟨clamp01_nonneg _, clamp01_le_one _, clamp01_nonneg _, clamp01_le_one _⟩
          | str s => simp [pyFloat] at h
          | list l2 => simp [pyFloat] at h
          | dict d2 => simp [pyFloat] at h
          | nullv => simp [pyFloat] at h
        | str s => simp [pyFloat] at h
        | list l2 => simp [pyFloat] at h
        | dict d2 => simp [pyFloat] at h
        | nullv => simp [pyFloat] at h
    | num q => simp [point] at h
    | str s => simp [point] at h
    | nullv => simp [point] at h
  · intro name r ds h dt hdt c hc
    cases r with
    | dict d =>
      simp only [detect] at h
      cases hl : lookupDict d "objects" with
      | none =>
        simp only [hl, Except.ok.injEq] at h
        subst h
        simp at hdt
      | some objs =>
        simp only [hl] at h
        cases hit : pyIterate objs with
        | error msg => simp [hit] at h
        | ok entries =>
          simp only [hit, Except.ok.injEq] at h
          subst h
          obtain ⟨obj, _hobj, hde⟩ := List.mem_filterMap.mp hdt
          exact (detectEntry_shape name obj dt hde).2.2 c hc
    | num q =>
      simp only [detect, Except.ok.injEq] at h
      subst h; simp at hdt
    | str s =>
      simp only [detect, Except.ok.injEq] at h
      subst h; simp at hdt
    | list l =>
      simp only [detect, Except.ok.injEq] at h
      subst h; simp at hdt
    | nullv =>
      simp only [detect, Except.ok.injEq] at h
      subst h; simp at hdt

/-- Witness for C1: a raw point response with coordinates 5 and -3 yields the
in-range pair (1, 0). -/
theorem c1_witness :
    0 ≤ ((1 : ℚ), (0 : ℚ)).1 ∧ ((1 : ℚ), (0 : ℚ)).1 ≤ 1 ∧
      0 ≤ ((1 : ℚ), (0 : ℚ)).2 ∧ ((1 : ℚ), (0 : ℚ)).2 ≤ 1 :=
  c1_coordinates_clamped.1
    (.dict [("points", .list [.dict [("x", .num 5), ("y", .num (-3))]])])
    [((1 : ℚ), (0 : ℚ))] (by rfl) ((1 : ℚ), (0 : ℚ)) (by simp)

/-- Claim C3: `point` normalizes the raw result as a tagged union — a record
with a `points` field keeps exactly the entries that have both `x` and `y`
(clamped, order preserved, missing-field entries dropped, empty survivors
meaning the sentinel); the spec's two concrete examples (`mkRat 14 10` is 1.4,
`mkRat (-2) 10` is -0.2, `mkRat 1 2` is 0.5, `mkRat 3 5` is 0.6, `mkRat 1 10`
is 0.1); a two-element pair is a single clamped point; any other shape is the
sentinel. -/
theorem c3_point_tagged_union :
    point (.dict [("points", .list [.dict [("x", .num (mkRat 14 10)), ("y", .num (mkRat (-2) 10))],
        .dict [("x", .num (mkRat 1 2)), ("y", .num (mkRat 3 5))]])]) =
      .ok (.found [(1, 0), (mkRat 1 2, mkRat 3 5)]) ∧
    point (.dict [("points", .list [.dict [("x", .num (mkRat 1 10))]])]) = .ok .notFound ∧
    (∀ x y : ℚ, point (.list [.num x, .num y]) = .ok (.found [(clamp01 x, clamp01 y)])) ∧
    (∀ (d : List (String × RawVal)) (es : List RawVal),
      lookupDict d "points" = some (.list es) →
      (∀ e ∈ es, goodPointEntry e = true) →
      point (.dict d) =
        .ok (if (es.filterMap parsePointEntry).isEmpty then PointResult.notFound
             else .found (es.filterMap parsePointEntry))) ∧
    (∀ v : RawVal, otherPointShape v = true → point v = .ok .notFound) := by
  refine ⟨by rfl, by rfl, ?_, point_dict_good, ?_⟩
  · intro x y
    rfl
  · intro v hv
    cases v with
    | dict d =>
      cases hl : lookupDict d "points" with
      | none => simp [point, hl]
      | some pl => simp [otherPointShape, hl] at hv
    | list l =>
      match l with
      | [] => rfl
      | [a] => rfl
      | [a, b] => simp [otherPointShape] at hv
      | a :: b :: c :: l3 => rfl
    | num q => rfl
    | str s => rfl
    | nullv => rfl

/-- Witness for C3: a shape that is neither a points record nor a pair is
normalized to the sentinel. -/
theorem c3_witness : point (.num 7) = .ok .notFound :=
  c3_point_tagged_union.2.2.2.2 (.num 7) (by rfl)

/-- Claim C8 counterexample: the claim says `point` raises no error of its own
on any raw result shape, including malformed entries inside a `points`
sequence; but on an entry whose `x` is the non-numeric string "abc" the
`float` coercion raises (uncaught — `point` has no try/except), so the call
fails instead of returning points or the sentinel. -/
theorem c8_counterexample :
    point (.dict [("points", .list [.dict [("x", .str "abc"), ("y", .num 0.5)]])]) =
      .error "ValueError: could not convert string to float" := by rfl

/-- Claim C8 (amended): `point` raises no error of its own provided the raw
result is well-shaped — every `points` entry is a record whose `x`/`y` values
are numeric whenever both fields are present (or the `points` value is falsy),
and a two-element pair has numeric components; on such results the output is
always an ordered point sequence or the not-found sentinel. -/
theorem c8_point_no_failure (v : RawVal) (h : wellShapedPoint v = true) :
    ∃ r : PointResult, point v = .ok r := by
  cases v with
  | num q => exact ⟨.notFound, rfl⟩
  | str s => exact ⟨.notFound, rfl⟩
  | nullv => exact ⟨.notFound, rfl⟩
  | list l =>
    match l with
    | [] => exact ⟨.notFound, rfl⟩
    | [a] => exact ⟨.notFound, rfl⟩
    | a :: b :: c :: l3 => exact ⟨.notFound, rfl⟩
    | [a, b] =>
      simp only [wellShapedPoint, Bool.and_eq_true] at h
      obtain ⟨ha, hb⟩ := h
      cases a with
      | num x =>
        cases b with
        | num y => exact ⟨.found [(clamp01 x, clamp01 y)], by simp [point, pyFloat]⟩
        | str s => simp [isNumVal] at hb
        | list l2 => simp [isNumVal] at hb
        | dict d2 => simp [isNumVal] at hb
        | nullv => simp [isNumVal] at hb
      | str s => simp [isNumVal] at ha
      | list l2 => simp [isNumVal] at ha
      | dict d2 => simp [isNumVal] at ha
      | nullv => simp [isNumVal] at ha
  | dict d =>
    cases hl : lookupDict d "points" with
    | none => exact ⟨.notFound, by simp [point, hl]⟩
    | some pl =>
      simp only [wellShapedPoint, hl] at h
      cases pl with
      | list es =>
        refine ⟨_, point_dict_good d es hl ?_⟩
        intro e he
        exact List.all_eq_true.mp h e he
      | num q =>
        refine ⟨.notFound, ?_⟩
        have hq : q = 0 := by simpa using h
        simp [point, hl, pyTruthy, hq]
      | str s =>
        refine ⟨.notFound, ?_⟩
        have hs : s.isEmpty = true := h
        simp [point, hl, pyTruthy, hs]
      | dict d2 =>
        refine ⟨.notFound, ?_⟩
        have hd : d2.isEmpty = true := by simpa using h
        simp [point, hl, pyTruthy, hd]
      | nullv => exact ⟨.notFound, by simp [point, hl, pyTruthy]⟩

/-- Witness for C8 (amended): a well-shaped response with one good entry is
normalized without error. -/
theorem c8_witness :
    ∃ r : PointResult,
      point (.dict [("points", .list [.dict [("x", .num 0.3), ("y", .num 0.4)]])]) = .ok r :=
  c8_point_no_failure (.dict [("points", .list [.dict [("x", .num 0.3), ("y", .num 0.4)]])])
    (by rfl)

/-- Claim C4: for every raw result whose `objects` field is a sequence,
`detect` builds a detection per entry that has all four of `x_min`, `y_min`,
`x_max`, `y_max` — labelled with the queried object name, bbox clamped,
confidence exactly 1.0 — while entries missing a field or with a value that
cannot be coerced to numeric are skipped, one malformed entry never aborting
the rest; and the spec's concrete example (`mkRat 1 2` is 0.5). -/
theorem c4_detect_entrywise :
    (∀ (name : String) (d : List (String × RawVal)) (objs : List RawVal),
      lookupDict d "objects" = some (.list objs) →
      detect name (.dict d) = .ok (objs.filterMap (detectEntry name))) ∧
    (∀ (name : String) (d2 : List (String × RawVal)) (x1 y1 x2 y2 : ℚ),
      lookupDict d2 "x_min" = some (.num x1) → lookupDict d2 "y_min" = some (.num y1) →
      lookupDict d2 "x_max" = some (.num x2) → lookupDict d2 "y_max" = some (.num y2) →
      detectEntry name (.dict d2) =
        some ⟨name, [clamp01 x1, clamp01 y1, clamp01 x2, clamp01 y2], 1⟩) ∧
    (∀ (name : String) (d2 : List (String × RawVal)),
      ((lookupDict d2 "x_min").isNone ∨ (lookupDict d2 "y_min").isNone ∨
        (lookupDict d2 "x_max").isNone ∨ (lookupDict d2 "y_max").isNone) →
      detectEntry name (.dict d2) = none) ∧
    (∀ (name : String) (d2 : List (String × RawVal)) (v : RawVal),
      lookupDict d2 "x_min" = some v → isNumVal v = false →
      detectEntry name (.dict d2) = none) ∧
    detect "cat" (.dict [("objects", .list [
        .dict [("x_min", .num 0), ("y_min", .num 0), ("x_max", .num (mkRat 1 2)),
          ("y_max", .num (mkRat 1 2))],
        .dict [("x_min", .num 0)]])]) =
      .ok [⟨"cat", [0, 0, mkRat 1 2, mkRat 1 2], 1⟩] := by
  refine ⟨?_, ?_, ?_, ?_, by rfl⟩
  · intro name d objs hl
    simp [detect, hl, pyIterate]
  · intro name d2 x1 y1 x2 y2 h1 h2 h3 h4
    simp [detectEntry, pyContains, pyGetStr, pyFloat, h1, h2, h3, h4]
  · intro name d2 hmiss
    rcases hmiss with hm | hm | hm | hm <;>
      rw [Option.isNone_iff_eq_none] at hm <;>
        simp [detectEntry, pyContains, hm] <;> (repeat' split) <;> rfl
  · intro name d2 v hv hnum
    cases v with
    | num x => simp [isNumVal] at hnum
    | str s => simp [detectEntry, pyContains, pyGetStr, pyFloat, hv]; (repeat' split) <;> rfl
    | list l => simp [detectEntry, pyContains, pyGetStr, pyFloat, hv]; (repeat' split) <;> rfl
    | dict dd => simp [detectEntry, pyContains, pyGetStr, pyFloat, hv]; (repeat' split) <;> rfl
    | nullv => simp [detectEntry, pyContains, pyGetStr, pyFloat, hv]; (repeat' split) <;> rfl

/-- Witness for C4: an entry with only `x_min` is skipped. -/
theorem c4_witness : detectEntry "cat" (.dict [("x_min", .num 0)]) = none :=
  c4_detect_entrywise.2.2.1 "cat" [("x_min", .num 0)] (Or.inr (Or.inl (by rfl)))

/-- Every capability of the all-failing model makes the dispatch body raise
with the model's message, whatever the question and mode. -/
theorem predictE_fail (msg q0 : String) (mode0 : Option String) :
    predictE (failModel msg) q0 mode0 = .error msg := by
  unfold predictE failModel
  dsimp only
  split_ifs <;> rfl

/-- Claim C2: `predict` never raises — any exception raised during invocation
or parsing inside the dispatch is caught at the dispatcher boundary and
converted into the string `"Error: "` followed by the exception message; in
particular a model whose every capability fails yields such a string for
every question and mode. -/
theorem c2_dispatcher_never_raises :
    (∀ (m : Model) (q0 : String) (mode0 : Option String) (e : String),
      predictE m q0 mode0 = .error e → predict m q0 mode0 = .text ("Error: " ++ e)) ∧
    (∀ (msg q0 : String) (mode0 : Option String),
      predict (failModel msg) q0 mode0 = .text ("Error: " ++ msg)) := by
  constructor
  · intro m q0 mode0 e h
    simp [predict, h]
  · intro msg q0 mode0
    simp [predict, predictE_fail]

/-- Witness for C2: forcing the invoker to fail with "boom" yields the plain
string "Error: boom". -/
theorem c2_witness :
    predict (failModel "boom") "hello" none = .text ("Error: " ++ "boom") :=
  c2_dispatcher_never_raises.1 (failModel "boom") "hello" none "boom" (by rfl)

/-- Claim C5: with no explicit mode, the cleaned question is classified by
priority-ordered first-match rules — caption cues first, then point cues,
then detect cues, else query — and the point/detect branches strip trigger
phrases, punctuation and a leading "the"; in particular "CAPTION" yields the
short caption mode, "a very long detailed caption please" the long one,
"where is the dog?" point mode with object name "dog", and
"detect cars and trucks" detect mode with object name "cars". -/
theorem c5_mode_classification :
    autoMode "CAPTION" = "caption_short" ∧
    autoMode "a very long detailed caption please" = "caption_long" ∧
    selectedMode "where is the dog?" none = "point" ∧
    pointObjectName (cleanQuestion "where is the dog?") = "dog" ∧
    selectedMode "detect cars and trucks" none = "detect" ∧
    detectObjectName (cleanQuestion "detect cars and trucks") = "cars" ∧
    (∀ q : String,
      (captionCond q = true → autoMode q = captionSub q) ∧
      (captionCond q = false → pointCond q = true → autoMode q = "point") ∧
      (captionCond q = false → pointCond q = false → detectCond q = true →
        autoMode q = "detect") ∧
      (captionCond q = false → pointCond q = false → detectCond q = false →
        autoMode q = "query")) := by
  refine ⟨by rfl, by rfl, by rfl, by rfl, by rfl, by rfl, ?_⟩
  intro q
  refine ⟨fun hc => ?_, fun hc hp => ?_, fun hc hp hd => ?_, fun hc hp hd => ?_⟩ <;>
    simp [autoMode, hc] <;> simp [hp] <;> simp [hd]

/-- Witness for C5: a question matching no cue is classified as query mode. -/
theorem c5_witness : autoMode "zzz" = "query" :=
  (c5_mode_classification.2.2.2.2.2.2 "zzz").2.2.2 (by rfl) (by rfl) (by rfl)

/-- Claim C9: only the detect branch truncates the extracted object name at
`" and "` — when the literal `" and "` occurs in the stripped name, the name
passed on is the text before the first `\s+and\s+` match (stripped), and
nothing is truncated otherwise; the point branch never truncates, as the
retained `" and "` in its extracted name shows. -/
theorem c9_detect_only_and_truncation :
    (∀ q : String, containsStr (pyLower (detectBaseName q)) " and " = false →
      detectObjectName q = detectBaseName q) ∧
    detectBaseName (cleanQuestion "detect cars and trucks") = "cars and trucks" ∧
    detectObjectName (cleanQuestion "detect cars and trucks") = "cars" ∧
    detectObjectName (cleanQuestion "detect cat and dog and bird") = "cat" ∧
    pointObjectName (cleanQuestion "where is the cat and dog?") = "cat and dog" ∧
    containsStr (pyLower (pointObjectName (cleanQuestion "where is the cat and dog?")))
      " and " = true := by
  refine ⟨?_, by rfl, by rfl, by rfl, by rfl, by rfl⟩
  intro q h
  simp [detectObjectName, h]

/-- Witness for C9: with no `" and "` in the stripped name, the detect branch
passes the base extraction through unchanged. -/
theorem c9_witness : detectObjectName "detect cat" = detectBaseName "detect cat" :=
  c9_detect_only_and_truncation.1 "detect cat" (by rfl)

/-- Claim C6: the effective settings contain exactly the fields that are set —
a field appears when its global default is `> 0` or its per-call override is
non-null, a non-null override always wins, and the merge is a pure total
function; in particular a disabled global temperature (0) with override 0.7
yields 0.7, and a global max_tokens of 100 with no override yields 100
(`mkRat 7 10` is 0.7). -/
theorem c6_settings_merge :
    (∀ (o : Opts) (t p mt : Option ℚ),
      (effective_settings o t p mt).temperature =
        (match t with
         | some v => some v
         | none =>
           if 0 < o.interrogate_vlm_temperature then some o.interrogate_vlm_temperature
           else none) ∧
      (effective_settings o t p mt).top_p =
        (match p with
         | some v => some v
         | none =>
           if 0 < o.interrogate_vlm_top_p then some o.interrogate_vlm_top_p else none) ∧
      (effective_settings o t p mt).max_tokens =
        (match mt with
         | some v => some v
         | none =>
           if 0 < o.interrogate_vlm_max_length then some o.interrogate_vlm_max_length
           else none)) ∧
    effective_settings ⟨100, 0, 0⟩ (some (mkRat 7 10)) none none =
      ⟨some 100, some (mkRat 7 10), none⟩ := by
  constructor
  · intro o t p mt
    rcases t with _ | tv <;> rcases p with _ | pv <;> rcases mt with _ | mv <;>
      simp only [effective_settings, get_settings, emptySettings] <;>
        (try split_ifs) <;> simp_all
  · rfl

/-- Claim C7 counterexample: the claim quantifies over every non-null key, but
for the non-null empty-string key the cache is bypassed entirely — two
successive `encode` calls both invoke the external encoder (and nothing is
stored), so "only one external encode invocation" fails. -/
theorem c7_counterexample :
    (encode_image (fun _ => 7) [] 0 (some "")).invoked = true ∧
    (encode_image (fun _ => 7) [] 0 (some "")).cache = [] ∧
    (encode_image (fun _ => 7)
        (encode_image (fun _ => 7) [] 0 (some "")).cache 0 (some "")).invoked = true :=
  ⟨rfl, rfl, rfl⟩

/-- Claim C7 (amended): for every non-empty (truthy) key, two successive
`encode(image, k)` calls return the same handle and only the first can invoke
the external encoder (exactly the first does when the key is not yet cached);
and after `clear_cache` an encode with a previously cached key invokes the
external encoder afresh. -/
theorem c7_cache_idempotent (enc : Nat → Nat) (c : Cache) (image : Nat) (k : String)
    (hk : k ≠ "") :
    (encode_image enc (encode_image enc c image (some k)).cache image (some k)).handle =
      (encode_image enc c image (some k)).handle ∧
    (encode_image enc (encode_image enc c image (some k)).cache image (some k)).invoked =
      false ∧
    (cacheLookup c k = none → (encode_image enc c image (some k)).invoked = true) ∧
    (encode_image enc (clear_cache (encode_image enc c image (some k)).cache) image
        (some k)).invoked = true := by
  have hlookup : ∀ v, cacheLookup (cacheInsert c k v) k = some v := by
    intro v
    simp [cacheLookup, cacheInsert, List.find?_cons_of_pos]
  have hclear : ∀ c' : Cache,
      (encode_image enc (clear_cache c') image (some k)).invoked = true := by
    intro c'
    simp [encode_image, hk, clear_cache, cacheLookup]
  cases hc : cacheLookup c k with
  | some h =>
    have h1 : encode_image enc c image (some k) = ⟨h, c, false⟩ := by
      simp [encode_image, hk, hc]
    simp only [h1]
    simp [hc, hclear]
  | none =>
    have h1 : encode_image enc c image (some k) =
        ⟨enc image, cacheInsert c k (enc image), true⟩ := by
      simp [encode_image, hk, hc]
    have h2 : encode_image enc (cacheInsert c k (enc image)) image (some k) =
        ⟨enc image, cacheInsert c k (enc image), false⟩ := by
      simp [encode_image, hk, hlookup]
    simp only [h1, h2]
    simp [hclear]

/-- Witness for C7 (amended): with key "k1" on an empty cache the second call
reuses the first call's handle without invoking the encoder. -/
theorem c7_witness :
    (encode_image (fun _ => 7) (encode_image (fun _ => 7) [] 0 (some "k1")).cache 0
        (some "k1")).handle = (encode_image (fun _ => 7) [] 0 (some "k1")).handle ∧
    (encode_image (fun _ => 7) (encode_image (fun _ => 7) [] 0 (some "k1")).cache 0
        (some "k1")).invoked = false ∧
    (cacheLookup [] "k1" = none → (encode_image (fun _ => 7) [] 0 (some "k1")).invoked = true) ∧
    (encode_image (fun _ => 7) (clear_cache (encode_image (fun _ => 7) [] 0 (some "k1")).cache) 0
        (some "k1")).invoked = true :=
  c7_cache_idempotent (fun _ => 7) [] 0 "k1" (by decide)

/-- Claim C10: an empty-string cache key behaves like no key at all — the
call neither reads from nor writes to the cache and always invokes the
external encoder, because cache participation is gated on the key's
truthiness. -/
theorem c10_empty_key_bypasses_cache (enc : Nat → Nat) (c : Cache) (image : Nat) :
    encode_image enc c image (some "") = ⟨enc image, c, true⟩ := by
  simp [encode_image]

end Moondream3
